import Mathlib

/-!
Verification development for the mail merge tool in src/app.py.

The embedding below translates the pure logic of the program into Lean:
the address extractor (extract_email with EMAIL_REGEX), the markdown
converter (convert_bold), the template rendering done through Python
str.format with keyword arguments, the Message-ID polling helper
(fetch_message_id_header), and the batch sending loop together with its
post-loop labeling call and summary. External Gmail API calls are
modelled as oracles recording, per record index, the outcome the API
returned; the requests the loop issues are collected in a trace so that
theorems can speak about what was sent.
-/

set_option linter.unusedVariables false
set_option maxRecDepth 100000

namespace MailMerge

/-! ### Address extraction: EMAIL_REGEX and extract_email (app.py lines 98 to 104) -/

/-- Characters of the regex class [\w.-] used by EMAIL_REGEX
(word characters modelled over ASCII). -/
def isEmailChar (c : Char) : Bool :=
  c.isAlphanum || c = '_' || c = '.' || c = '-'

/-- Characters of the regex class \w (ASCII word characters). -/
def isWordChar (c : Char) : Bool :=
  c.isAlphanum || c = '_'

/-- Backtracking for the tail of EMAIL_REGEX: given the maximal domain run
R of [\w.-] characters, try domain-prefix lengths largest first; succeed
when the character right after the prefix is a dot followed by a nonempty
run of word characters, as the greedy second run backtracks for the final
dot and top-level-domain part. -/
def findSplit (R : List Char) : Nat → Option (List Char × List Char)
  | 0 => none
  | b + 1 =>
    match R.drop (b + 1) with
    | '.' :: tail =>
      let W := tail.takeWhile isWordChar
      if W.isEmpty then findSplit R b else some (R.take (b + 1), W)
    | _ => findSplit R b

/-- One attempt of EMAIL_REGEX anchored at the start of s: a nonempty
[\w.-]+ local run, an at sign, and a domain run split by findSplit.
Returns the matched characters. -/
def matchAt (s : List Char) : Option (List Char) :=
  let L := s.takeWhile isEmailChar
  if L.isEmpty then none
  else
    match s.drop L.length with
    | '@' :: s2 =>
      let R := s2.takeWhile isEmailChar
      match findSplit R (R.length - 1) with
      | some (B, W) => some (L ++ '@' :: (B ++ '.' :: W))
      | none => none
    | _ => none

/-- re.search scanning: try every start position left to right. -/
def searchGo : List Char → Option (List Char)
  | [] => none
  | c :: cs =>
    match matchAt (c :: cs) with
    | some r => some r
    | none => searchGo cs

/-- extract_email from app.py: None for a falsy value, otherwise the first
EMAIL_REGEX match in the string, or None when there is none. -/
def extract_email (value : String) : Option String :=
  if value = "" then none
  else (searchGo value.data).map String.mk

/-! ### Markdown conversion: convert_bold (app.py lines 106 to 120) -/

/-- Non-greedy scan for the closing ** of the bold regex: consume
characters (no newline, as the dot does not match newlines) until the next
two stars, returning the content and the rest after the closing stars. -/
def findClose : List Char → Option (List Char × List Char)
  | [] => none
  | [_] => none
  | c :: d :: cs =>
    if c = '*' ∧ d = '*' then some ([], cs)
    else if c = '\n' then none
    else
      match findClose (d :: cs) with
      | some (p, r) => some (c :: p, r)
      | none => none

/-- Global substitution for the bold regex, fuelled by the input length:
at each position, two stars followed by a non-greedy close produce a bold
tag around the content; otherwise scanning advances one character. -/
def boldSubGo : Nat → List Char → List Char
  | 0, s => s
  | _ + 1, [] => []
  | _ + 1, [c] => [c]
  | fuel + 1, c :: d :: cs =>
    if c = '*' ∧ d = '*' then
      match findClose cs with
      | some (content, rest) =>
        "<b>".data ++ content ++ "</b>".data ++ boldSubGo fuel rest
      | none => c :: boldSubGo fuel (d :: cs)
    else c :: boldSubGo fuel (d :: cs)

def boldSub (s : List Char) : List Char := boldSubGo s.length s

/-- The characters of the Python regex class \s (and of str.strip,
modelled over the ASCII whitespace characters). -/
def pyIsSpace (c : Char) : Bool :=
  c = ' ' || c = '\t' || c = '\n' || c = '\r' || c = '\x0b' || c = '\x0c'

/-- Python str.strip(): drop leading and trailing whitespace. -/
def pyStrip (s : String) : String :=
  String.mk (((s.data.dropWhile pyIsSpace).reverse.dropWhile pyIsSpace).reverse)

/-- The tail of the link regex: an http or https scheme, one or more
characters that are neither whitespace nor a closing parenthesis, then the
closing parenthesis. Returns the captured url and the rest. -/
def parseUrl (s : List Char) : Option (List Char × List Char) :=
  let sch : Option Nat :=
    if "https://".data.isPrefixOf s then some 8
    else if "http://".data.isPrefixOf s then some 7
    else none
  match sch with
  | none => none
  | some n =>
    let s2 := s.drop n
    let run := s2.takeWhile (fun c => !(pyIsSpace c) && c != ')')
    if run.isEmpty then none
    else
      match s2.drop run.length with
      | ')' :: s4 => some (s.take n ++ run, s4)
      | _ => none

/-- Non-greedy label search of the link regex: at each position first try
to close the label with a bracket-parenthesis pair followed by a full url
part; otherwise consume one non-newline character into the label. -/
def findLabel : List Char → Option (List Char × List Char × List Char)
  | [] => none
  | [_] => none
  | c :: d :: cs =>
    if c = ']' ∧ d = '(' then
      match parseUrl cs with
      | some (url, rest) => some ([], url, rest)
      | none =>
        match findLabel (d :: cs) with
        | some (l, u, r) => some (c :: l, u, r)
        | none => none
    else if c = '\n' then none
    else
      match findLabel (d :: cs) with
      | some (l, u, r) => some (c :: l, u, r)
      | none => none

/-- Global substitution for the link regex, fuelled by the input length. -/
def linkSubGo : Nat → List Char → List Char
  | 0, s => s
  | _ + 1, [] => []
  | fuel + 1, c :: cs =>
    if c = '[' then
      match findLabel cs with
      | some (label, url, rest) =>
        "<a href=\"".data ++ url
          ++ "\" style=\"color:#1a73e8; text-decoration:underline;\" target=\"_blank\">".data
          ++ label ++ "</a>".data ++ linkSubGo fuel rest
      | none => c :: linkSubGo fuel cs
    else c :: linkSubGo fuel cs

def linkSub (s : List Char) : List Char := linkSubGo s.length s

/-- Python str.replace: left to right, non-overlapping, fuelled by the
input length (pat must be nonempty, as it is at both use sites). -/
def pyReplaceGo (pat rep : List Char) : Nat → List Char → List Char
  | 0, s => s
  | _ + 1, [] => []
  | fuel + 1, c :: cs =>
    if !pat.isEmpty && pat.isPrefixOf (c :: cs) then
      rep ++ pyReplaceGo pat rep fuel ((c :: cs).drop pat.length)
    else c :: pyReplaceGo pat rep fuel cs

def pyReplace (pat rep s : List Char) : List Char := pyReplaceGo pat rep s.length s

/-- Opening part of the styled document shell of convert_bold. -/
def shellPre : String :=
  "\n    <html><body style=\"font-family: \x27Google Sans\x27, Arial, sans-serif; font-size: 14px; line-height: 1.6;\">\n        "

/-- Closing part of the styled document shell of convert_bold. -/
def shellPost : String := "\n    </body></html>\n    "

/-- convert_bold from app.py: empty output for falsy input; otherwise bold
substitution, then link substitution, then newline and double-space
replacement, wrapped in the styled document shell. -/
def convert_bold (text : String) : String :=
  if text = "" then ""
  else
    shellPre
      ++ String.mk (pyReplace "  ".data "&nbsp;&nbsp;".data
            (pyReplace "\n".data "<br>".data (linkSub (boldSub text.data))))
      ++ shellPost

/-! ### Recipient rows and template rendering (str.format with keyword arguments) -/

/-- A recipient row: association list from column name to cell text
(pandas rows are read through row.get and written per column). -/
abbrev Row := List (String × String)

/-- row.get(k, "") on a row. -/
def rowGet (r : Row) (k : String) : String :=
  match r.lookup k with
  | some v => v
  | none => ""

/-- Column assignment on a row (the column exists after preparation, but
a missing key is appended for totality). -/
def rowSet : Row → String → String → Row
  | [], k, v => [(k, v)]
  | (k2, v2) :: rest, k, v =>
    if k2 = k then (k, v) :: rest else (k2, v2) :: rowSet rest k v

/-- Python str.format with keyword arguments, modelled for templates whose
replacement fields are simple names: doubled braces escape to a literal
brace, an opening brace starts a field read up to the closing brace, a
field whose name is not a key of the row raises a KeyError carrying the
field name, and an unmatched brace raises a ValueError. The second
argument is none in literal mode and carries the reversed accumulated
field name inside a replacement field. -/
def fmtGo (r : Row) : List Char → Option (List Char) → Except String (List Char)
  | [], none => .ok []
  | [], some _ => .error "ValueError"
  | c :: cs, some acc =>
    if c = '\x7d' then
      match r.lookup (String.mk acc.reverse) with
      | some v => (fmtGo r cs none).map (fun l => v.data ++ l)
      | none => .error (String.mk acc.reverse)
    else fmtGo r cs (some (c :: acc))
  | [c], none =>
    if c = '\x7b' then .error "ValueError"
    else if c = '\x7d' then .error "ValueError"
    else .ok [c]
  | c :: d :: cs, none =>
    if c = '\x7b' then
      if d = '\x7b' then (fmtGo r cs none).map (fun l => '\x7b' :: l)
      else fmtGo r (d :: cs) (some [])
    else if c = '\x7d' then
      if d = '\x7d' then (fmtGo r cs none).map (fun l => '\x7d' :: l)
      else .error "ValueError"
    else (fmtGo r (d :: cs) none).map (fun l => c :: l)

/-- template.format(**row) as used for subject and body rendering. -/
def pyFormat (r : Row) (tmpl : String) : Except String String :=
  (fmtGo r tmpl.data none).map String.mk

instance {α : Type} [DecidableEq α] : DecidableEq (Except String α) := fun x y =>
  match x, y with
  | .error a, .error b =>
    if h : a = b then .isTrue (by rw [h]) else .isFalse (by simp [h])
  | .ok a, .ok b =>
    if h : a = b then .isTrue (by rw [h]) else .isFalse (by simp [h])
  | .error _, .ok _ => .isFalse (by simp)
  | .ok _, .error _ => .isFalse (by simp)

/-! ### Message-ID polling (app.py lines 154 to 167) -/

/-- fetch_message_id_header over a trace of poll attempts: an attempt is
none when the metadata call raised or no Message-ID header was present in
the response, and some v when a header named Message-ID was found, v being
its value (itself none when the value key was absent). The loop makes at
most the given number of attempts and returns the empty string on
exhaustion. -/
def fetchGo : Nat → List (Option (Option String)) → Option String
  | 0, _ => some ""
  | _ + 1, [] => some ""
  | n + 1, a :: rest =>
    match a with
    | some v => v
    | none => fetchGo n rest

/-- The bounded poll of app.py: six attempts. -/
def fetch_message_id_header (attempts : List (Option (Option String))) : Option String :=
  fetchGo 6 attempts

/-- Python x or y for an optional string x: y when x is None or empty. -/
def pyOrElse (x : Option String) (y : String) : String :=
  match x with
  | some s => if s = "" then y else s
  | none => y

/-! ### The batch runner (app.py lines 270 to 405) -/

inductive Mode
  | newEmail
  | followupReply
  | saveAsDraft
deriving DecidableEq

/-- The fields of a successful messages send response that the code
reads: sent_msg.get("id", "") and sent_msg.get("threadId", ""). -/
structure SentMsg where
  id : String
  threadId : String
deriving DecidableEq

/-- The constructed MIME message, keeping the headers the code sets. -/
structure Message where
  toAddr : String
  subject : String
  bodyHtml : String
  inReplyTo : Option String
  references : Option String
deriving DecidableEq

/-- The request body handed to the send or draft call: the encoded
message and, for threaded sends, the thread id. -/
structure MsgBody where
  message : Message
  threadId : Option String
deriving DecidableEq

/-- One provider call issued by the loop, with the outcome the oracle
returned for it. -/
inductive Request
  | send (idx : Nat) (body : MsgBody) (outcome : Except String SentMsg)
  | draft (idx : Nat) (body : MsgBody) (outcome : Except String Unit)

def Request.body : Request → MsgBody
  | Request.send _ b _ => b
  | Request.draft _ b _ => b

/-- Oracle for the external Gmail API: per record index, the outcome of
the send call, the outcome of the draft call, the Message-ID poll attempt
trace, and the result of get_or_create_label. -/
structure Gmail where
  sendResult : Nat → Except String SentMsg
  draftResult : Nat → Except String Unit
  msgIdAttempts : Nat → List (Option (Option String))
  labelLookup : Option String

/-- The mutable state of one sending pass. -/
structure RunState where
  df : List Row
  sent_count : Nat
  skipped : List String
  errors : List (String × String)
  batch_count : Nat
  sent_message_ids : List String
  requests : List Request

/-- The end-of-run summary stored in session state. -/
structure Summary where
  sent : Nat
  errors : List (String × String)
  skipped : List String
deriving DecidableEq

/-- df.loc assignment of one cell. -/
def dfSet (df : List Row) (i : Nat) (k v : String) : List Row :=
  df.set i (rowSet (df.getD i []) k v)

def statusOf (df : List Row) (i : Nat) : String := rowGet (df.getD i []) "Status"

/-- pending_indices from app.py line 274: the indices whose Status is
neither Sent nor Draft. -/
def pending_indices (df : List Row) : List Nat :=
  (List.range df.length).filter
    (fun i => !(statusOf df i == "Sent" || statusOf df i == "Draft"))

/-- Add one of the managed columns when missing (app.py lines 228 to 230). -/
def ensureCol (r : Row) (k : String) : Row :=
  if (r.lookup k).isSome then r else r ++ [(k, "")]

def prepareRow (r : Row) : Row :=
  ensureCol (ensureCol (ensureCol r "ThreadId") "RfcMessageId") "Status"

def prepareDf (df : List Row) : List Row := df.map prepareRow

/-- The per-record exception handler: mark the record Error and retain
the exception message against the address (app.py lines 369 to 372). -/
def markError (st : RunState) (idx : Nat) (addr e : String) : RunState :=
  { st with df := dfSet st.df idx "Status" "Error",
            errors := st.errors ++ [(addr, e)] }

def BATCH_SIZE_DEFAULT : Nat := 50
def DRAFT_BATCH_SIZE_DEFAULT : Nat := 110

/-- The per-mode cap chosen at the top of each iteration (app.py line 315). -/
def batchLimit (m : Mode) (sendCap draftCap : Nat) : Nat :=
  if m == Mode.saveAsDraft then draftCap else sendCap

/-- The message and request body built at app.py lines 334 to 352: the
threading headers and the thread id are attached only in Follow-up mode
with both linkage fields nonempty after stripping. -/
def stepBody (m : Mode) (row : Row) (toAddr subject bodyRendered : String) : MsgBody :=
  let threadId := pyStrip (rowGet row "ThreadId")
  let rfcId := pyStrip (rowGet row "RfcMessageId")
  let threaded : Bool :=
    m == Mode.followupReply && threadId != "" && rfcId != ""
  { message :=
      { toAddr := toAddr, subject := subject,
        bodyHtml := convert_bold bodyRendered,
        inReplyTo := if threaded then some rfcId else none,
        references := if threaded then some rfcId else none },
    threadId := if threaded then some threadId else none }

/-- One iteration of the sending loop (app.py lines 319 to 372): extract
the address (skip when absent), render subject and body, build the message
body, then draft or send; success updates the tracking columns and
counters, any failure marks the record Error. -/
def processStep (m : Mode) (labelId : Option String) (subjT bodyT : String)
    (g : Gmail) (st : RunState) (idx : Nat) : RunState :=
  let row := st.df.getD idx []
  let emailRaw := rowGet row "Email"
  match extract_email (pyStrip emailRaw) with
  | none =>
    { st with skipped := st.skipped ++ [emailRaw],
              df := dfSet st.df idx "Status" "Skipped" }
  | some toAddr =>
    match pyFormat row subjT with
    | .error e => markError st idx toAddr e
    | .ok subject =>
      match pyFormat row bodyT with
      | .error e => markError st idx toAddr e
      | .ok bodyRendered =>
        let body : MsgBody := stepBody m row toAddr subject bodyRendered
        match m with
        | Mode.saveAsDraft =>
          match g.draftResult idx with
          | .ok _ =>
            { st with df := dfSet st.df idx "Status" "Draft",
                      sent_count := st.sent_count + 1,
                      batch_count := st.batch_count + 1,
                      requests := st.requests ++ [Request.draft idx body (.ok ())] }
          | .error e =>
            { markError st idx toAddr e with
              requests := st.requests ++ [Request.draft idx body (.error e)] }
        | _ =>
          match g.sendResult idx with
          | .ok sm =>
            let rfcStored :=
              pyOrElse (fetch_message_id_header (g.msgIdAttempts idx)) sm.id
            { st with
              df := dfSet (dfSet (dfSet st.df idx "ThreadId" sm.threadId)
                      idx "RfcMessageId" rfcStored) idx "Status" "Sent",
              sent_count := st.sent_count + 1,
              batch_count := st.batch_count + 1,
              sent_message_ids :=
                if m == Mode.newEmail && labelId.isSome
                then st.sent_message_ids ++ [sm.id] else st.sent_message_ids,
              requests := st.requests ++ [Request.send idx body (.ok sm)] }
          | .error e =>
            { markError st idx toAddr e with
              requests := st.requests ++ [Request.send idx body (.error e)] }

/-- The sending loop (app.py lines 313 to 372): iterate the pending
indices in order, breaking once batch_count has reached the per-mode cap. -/
def runLoop (m : Mode) (labelId : Option String) (subjT bodyT : String)
    (g : Gmail) (sendCap draftCap : Nat) : List Nat → RunState → RunState
  | [], st => st
  | idx :: rest, st =>
    if st.batch_count ≥ batchLimit m sendCap draftCap then st
    else runLoop m labelId subjT bodyT g sendCap draftCap rest
           (processStep m labelId subjT bodyT g st idx)

/-- The outcome of one whole sending pass. -/
structure RunResult where
  state : RunState
  labelCall : Option (List String × String)
  labelWarning : Bool
  summary : Summary

def initState (df : List Row) : RunState :=
  { df := df, sent_count := 0, skipped := [], errors := [],
    batch_count := 0, sent_message_ids := [], requests := [] }

/-- The condition guarding the batched labeling call (app.py lines 375 to
383): the mode is not Draft, some ids were collected and a label id
exists; the issued call carries all collected ids and the label id. -/
def labelCallOf (m : Mode) (labelId : Option String) (ids : List String) :
    Option (List String × String) :=
  if m != Mode.saveAsDraft && !ids.isEmpty && labelId.isSome
  then some (ids, labelId.getD "") else none

/-- The whole sending pass (app.py lines 270 to 405): prepare the table,
obtain a label id only in New mode, compute the pending indices, run the
loop, then issue the single batched labeling call when the mode is not
Draft, some ids were collected and a label id exists. batchModifyOk is the
outcome of that batchModify call; it only feeds the warning flag. -/
def runBatch (m : Mode) (subjT bodyT : String) (g : Gmail) (df0 : List Row)
    (sendCap draftCap : Nat) (batchModifyOk : Bool) : RunResult :=
  let df := prepareDf df0
  let labelId := if m == Mode.newEmail then g.labelLookup else none
  let pending := pending_indices df
  let stF := runLoop m labelId subjT bodyT g sendCap draftCap pending (initState df)
  let labelCall := labelCallOf m labelId stF.sent_message_ids
  { state := stF,
    labelCall := labelCall,
    labelWarning := labelCall.isSome && !batchModifyOk,
    summary := { sent := stF.sent_count, errors := stF.errors,
                 skipped := stF.skipped } }

/-- The ids of the successfully sent messages in a request trace. -/
def sentIdsOf (reqs : List Request) : List String :=
  reqs.filterMap fun r =>
    match r with
    | Request.send _ _ (.ok sm) => some sm.id
    | _ => none

/-! ### Structured templates, for the rendering claims -/

/-- A structured view of a template: literal text and placeholders. -/
inductive Part
  | lit (s : String)
  | ph (f : String)
deriving DecidableEq

/-- The template string a list of parts denotes. -/
def buildTemplate : List Part → List Char
  | [] => []
  | Part.lit s :: rest => s.data ++ buildTemplate rest
  | Part.ph f :: rest => '\x7b' :: (f.data ++ '\x7d' :: buildTemplate rest)

def braceFree (s : String) : Prop := '\x7b' ∉ s.data ∧ '\x7d' ∉ s.data

def wfPart : Part → Prop
  | Part.lit s => braceFree s
  | Part.ph f => braceFree f

/-- Rendering as the spec describes it: placeholders replaced by the
value of the record field, literal text kept unchanged; the first
placeholder naming an absent field fails with that field name. -/
def renderPartsE (r : Row) : List Part → Except String (List Char)
  | [] => .ok []
  | Part.lit s :: rest => (renderPartsE r rest).map (fun l => s.data ++ l)
  | Part.ph f :: rest =>
    match r.lookup f with
    | some v => (renderPartsE r rest).map (fun l => v.data ++ l)
    | none => .error f

/-- Total rendering when every placeholder field is present. -/
def partsJoin (r : Row) : List Part → List Char
  | [] => []
  | Part.lit s :: rest => s.data ++ partsJoin r rest
  | Part.ph f :: rest => (rowGet r f).data ++ partsJoin r rest

/-! ### Concrete fixtures for witnesses and counterexamples -/

/-- An oracle on which every external call succeeds. -/
def gOk : Gmail :=
  { sendResult := fun _ => .ok { id := "id1", threadId := "t1" },
    draftResult := fun _ => .ok (),
    msgIdAttempts := fun _ => [],
    labelLookup := some "L" }

def pendingRow : Row :=
  [("Email", "a@b.com"), ("ThreadId", ""), ("RfcMessageId", ""), ("Status", "Pending")]

def dfOne : List Row := [pendingRow]

def df3Pending : List Row := [pendingRow, pendingRow, pendingRow]

/-- One record whose Status is the terminal value Skipped and whose Email
field holds no address. -/
def dfAllSkipped : List Row :=
  [[("Email", "x"), ("ThreadId", ""), ("RfcMessageId", ""), ("Status", "Skipped")]]

def dfAllSent : List Row :=
  [[("Email", "a@b.com"), ("ThreadId", "t"), ("RfcMessageId", "m"), ("Status", "Sent")],
   [("Email", "b@c.com"), ("ThreadId", ""), ("RfcMessageId", ""), ("Status", "Draft")]]

/-- A follow-up record with an empty ThreadId but a prior message id. -/
def followupRow : Row :=
  [("Email", "a@b.com"), ("ThreadId", ""), ("RfcMessageId", "m1"), ("Status", "Pending")]

def dfFollowup : List Row := [followupRow]

def adaRow : Row := [("Name", "Ada")]

def greetParts : List Part := [Part.lit "Dear ", Part.ph "Name", Part.lit "!"]

def badParts : List Part := [Part.lit "Hello ", Part.ph "Missing"]

/-- A record whose template rendering will fail: no Name or Missing field. -/
def errRow : Row := [("Email", "a@b.com"), ("Status", "Pending")]

def dfErr : List Row := [errRow]

/-! ### Helper lemmas: rows and cell updates -/

theorem lookup_rowSet_self (r : Row) (k v : String) :
    (rowSet r k v).lookup k = some v := by
  induction r with
  | nil => simp [rowSet]
  | cons p rest ih =>
    obtain ⟨k2, v2⟩ := p
    by_cases h : k2 = k
    · subst h; simp [rowSet]
    · have hb : (k == k2) = false := beq_eq_false_iff_ne.mpr (Ne.symm h)
      simp [rowSet, h, List.lookup, hb, ih]

theorem lookup_rowSet_ne (r : Row) (k v k2 : String) (h : k2 ≠ k) :
    (rowSet r k v).lookup k2 = r.lookup k2 := by
  have hb : (k2 == k) = false := beq_eq_false_iff_ne.mpr h
  induction r with
  | nil => simp [rowSet, List.lookup, hb]
  | cons p rest ih =>
    obtain ⟨k3, v3⟩ := p
    by_cases h3 : k3 = k
    · subst h3
      simp [rowSet, List.lookup, hb]
    · simp [rowSet, h3, List.lookup, ih]

theorem rowGet_rowSet_self (r : Row) (k v : String) :
    rowGet (rowSet r k v) k = v := by
  simp [rowGet, lookup_rowSet_self]

theorem rowGet_rowSet_ne (r : Row) (k v k2 : String) (h : k2 ≠ k) :
    rowGet (rowSet r k v) k2 = rowGet r k2 := by
  simp [rowGet, lookup_rowSet_ne r k v k2 h]

theorem dfSet_length (df : List Row) (i : Nat) (k v : String) :
    (dfSet df i k v).length = df.length := by
  simp [dfSet]

theorem dfSet_getD_self (df : List Row) (i : Nat) (k v : String)
    (h : i < df.length) :
    (dfSet df i k v).getD i [] = rowSet (df.getD i []) k v := by
  simp [dfSet, List.getD, List.getElem?_set_eq_of_lt _ h]

theorem dfSet_getD_ne (df : List Row) (i j : Nat) (k v : String) (h : j ≠ i) :
    (dfSet df i k v).getD j [] = df.getD j [] := by
  simp [dfSet, List.getD, List.getElem?_set_ne (Ne.symm h)]

/-! ### Helper lemmas: one loop iteration -/

theorem processStep_skip (m : Mode) (labelId : Option String)
    (subjT bodyT : String) (g : Gmail) (st : RunState) (idx : Nat)
    (he : extract_email (pyStrip (rowGet (st.df.getD idx []) "Email")) = none) :
    processStep m labelId subjT bodyT g st idx =
      { st with skipped := st.skipped ++ [rowGet (st.df.getD idx []) "Email"],
                df := dfSet st.df idx "Status" "Skipped" } := by
  simp only [processStep, he]

theorem processStep_subj_err (m : Mode) (labelId : Option String)
    (subjT bodyT : String) (g : Gmail) (st : RunState) (idx : Nat)
    (toAddr e : String)
    (he : extract_email (pyStrip (rowGet (st.df.getD idx []) "Email")) = some toAddr)
    (h1 : pyFormat (st.df.getD idx []) subjT = .error e) :
    processStep m labelId subjT bodyT g st idx = markError st idx toAddr e := by
  simp only [processStep, he, h1]

theorem processStep_body_err (m : Mode) (labelId : Option String)
    (subjT bodyT : String) (g : Gmail) (st : RunState) (idx : Nat)
    (toAddr s1 e : String)
    (he : extract_email (pyStrip (rowGet (st.df.getD idx []) "Email")) = some toAddr)
    (h1 : pyFormat (st.df.getD idx []) subjT = .ok s1)
    (h2 : pyFormat (st.df.getD idx []) bodyT = .error e) :
    processStep m labelId subjT bodyT g st idx = markError st idx toAddr e := by
  simp only [processStep, he, h1, h2]

theorem processStep_send_ok (m : Mode) (labelId : Option String)
    (subjT bodyT : String) (g : Gmail) (st : RunState) (idx : Nat)
    (toAddr s1 s2 : String) (sm : SentMsg)
    (hm : m ≠ Mode.saveAsDraft)
    (he : extract_email (pyStrip (rowGet (st.df.getD idx []) "Email")) = some toAddr)
    (h1 : pyFormat (st.df.getD idx []) subjT = .ok s1)
    (h2 : pyFormat (st.df.getD idx []) bodyT = .ok s2)
    (hs : g.sendResult idx = .ok sm) :
    processStep m labelId subjT bodyT g st idx =
      { st with
        df := dfSet (dfSet (dfSet st.df idx "ThreadId" sm.threadId)
                idx "RfcMessageId"
                (pyOrElse (fetch_message_id_header (g.msgIdAttempts idx)) sm.id))
                idx "Status" "Sent",
        sent_count := st.sent_count + 1,
        batch_count := st.batch_count + 1,
        sent_message_ids :=
          if m == Mode.newEmail && labelId.isSome
          then st.sent_message_ids ++ [sm.id] else st.sent_message_ids,
        requests := st.requests
          ++ [Request.send idx (stepBody m (st.df.getD idx []) toAddr s1 s2) (.ok sm)] } := by
  cases m with
  | saveAsDraft => exact absurd rfl hm
  | newEmail => simp only [processStep, he, h1, h2, hs]
  | followupReply => simp only [processStep, he, h1, h2, hs]

theorem processStep_send_err (m : Mode) (labelId : Option String)
    (subjT bodyT : String) (g : Gmail) (st : RunState) (idx : Nat)
    (toAddr s1 s2 e : String)
    (hm : m ≠ Mode.saveAsDraft)
    (he : extract_email (pyStrip (rowGet (st.df.getD idx []) "Email")) = some toAddr)
    (h1 : pyFormat (st.df.getD idx []) subjT = .ok s1)
    (h2 : pyFormat (st.df.getD idx []) bodyT = .ok s2)
    (hs : g.sendResult idx = .error e) :
    processStep m labelId subjT bodyT g st idx =
      { markError st idx toAddr e with
        requests := st.requests
          ++ [Request.send idx (stepBody m (st.df.getD idx []) toAddr s1 s2) (.error e)] } := by
  cases m with
  | saveAsDraft => exact absurd rfl hm
  | newEmail => simp only [processStep, he, h1, h2, hs]
  | followupReply => simp only [processStep, he, h1, h2, hs]

theorem processStep_draft_ok (labelId : Option String)
    (subjT bodyT : String) (g : Gmail) (st : RunState) (idx : Nat)
    (toAddr s1 s2 : String)
    (he : extract_email (pyStrip (rowGet (st.df.getD idx []) "Email")) = some toAddr)
    (h1 : pyFormat (st.df.getD idx []) subjT = .ok s1)
    (h2 : pyFormat (st.df.getD idx []) bodyT = .ok s2)
    (hd : g.draftResult idx = .ok ()) :
    processStep Mode.saveAsDraft labelId subjT bodyT g st idx =
      { st with
        df := dfSet st.df idx "Status" "Draft",
        sent_count := st.sent_count + 1,
        batch_count := st.batch_count + 1,
        requests := st.requests
          ++ [Request.draft idx
                (stepBody Mode.saveAsDraft (st.df.getD idx []) toAddr s1 s2) (.ok ())] } := by
  simp only [processStep, he, h1, h2, hd]

/-- The message body built when the Follow-up linkage is incomplete: no
thread id and no threading headers. -/
theorem stepBody_unthreaded (m : Mode) (row : Row) (toAddr s1 s2 : String)
    (h : pyStrip (rowGet row "ThreadId") = "" ∨ pyStrip (rowGet row "RfcMessageId") = "") :
    stepBody m row toAddr s1 s2 =
      { message := { toAddr := toAddr, subject := s1, bodyHtml := convert_bold s2,
                     inReplyTo := none, references := none },
        threadId := none } := by
  rcases h with h | h <;> simp [stepBody, h]

theorem processStep_draft_err (labelId : Option String)
    (subjT bodyT : String) (g : Gmail) (st : RunState) (idx : Nat)
    (toAddr s1 s2 e : String)
    (he : extract_email (pyStrip (rowGet (st.df.getD idx []) "Email")) = some toAddr)
    (h1 : pyFormat (st.df.getD idx []) subjT = .ok s1)
    (h2 : pyFormat (st.df.getD idx []) bodyT = .ok s2)
    (hd : g.draftResult idx = .error e) :
    processStep Mode.saveAsDraft labelId subjT bodyT g st idx =
      { markError st idx toAddr e with
        requests := st.requests
          ++ [Request.draft idx
                (stepBody Mode.saveAsDraft (st.df.getD idx []) toAddr s1 s2) (.error e)] } := by
  simp only [processStep, he, h1, h2, hd]

/-- Shape facts about one iteration: the counter grows by at most one,
rows at other indices are untouched, and in New mode with a label id the
collected ids stay exactly the ids of the successfully sent requests. -/
theorem processStep_shape (m : Mode) (labelId : Option String)
    (subjT bodyT : String) (g : Gmail) (st : RunState) (idx : Nat) :
    (processStep m labelId subjT bodyT g st idx).batch_count ≤ st.batch_count + 1
    ∧ (∀ j, j ≠ idx →
        (processStep m labelId subjT bodyT g st idx).df.getD j [] = st.df.getD j [])
    ∧ (m = Mode.newEmail → labelId.isSome = true →
        st.sent_message_ids = sentIdsOf st.requests →
        (processStep m labelId subjT bodyT g st idx).sent_message_ids
          = sentIdsOf (processStep m labelId subjT bodyT g st idx).requests) := by
  cases he : extract_email (pyStrip (rowGet (st.df.getD idx []) "Email")) with
  | none =>
    rw [processStep_skip m labelId subjT bodyT g st idx he]
    exact ⟨by simp, fun j hj => dfSet_getD_ne _ _ _ _ _ hj, fun _ _ h => h⟩
  | some toAddr =>
    cases h1 : pyFormat (st.df.getD idx []) subjT with
    | error e =>
      rw [processStep_subj_err m labelId subjT bodyT g st idx toAddr e he h1]
      exact ⟨by simp [markError],
        fun j hj => dfSet_getD_ne _ _ _ _ _ hj, fun _ _ h => h⟩
    | ok s1 =>
      cases h2 : pyFormat (st.df.getD idx []) bodyT with
      | error e =>
        rw [processStep_body_err m labelId subjT bodyT g st idx toAddr s1 e he h1 h2]
        exact ⟨by simp [markError],
          fun j hj => dfSet_getD_ne _ _ _ _ _ hj, fun _ _ h => h⟩
      | ok s2 =>
        cases m with
        | saveAsDraft =>
          cases hd : g.draftResult idx with
          | ok u =>
            cases u
            rw [processStep_draft_ok labelId subjT bodyT g st idx toAddr s1 s2 he h1 h2 hd]
            refine ⟨by simp, fun j hj => dfSet_getD_ne _ _ _ _ _ hj, fun hmm => by cases hmm⟩
          | error e =>
            rw [processStep_draft_err labelId subjT bodyT g st idx toAddr s1 s2 e he h1 h2 hd]
            refine ⟨by simp [markError],
              fun j hj => dfSet_getD_ne _ _ _ _ _ hj, fun hmm => by cases hmm⟩
        | newEmail =>
          cases hs : g.sendResult idx with
          | ok sm =>
            rw [processStep_send_ok Mode.newEmail labelId subjT bodyT g st idx toAddr s1 s2 sm
              (by simp) he h1 h2 hs]
            refine ⟨by simp, ?_, ?_⟩
            · intro j hj
              simp only
              rw [dfSet_getD_ne _ _ _ _ _ hj, dfSet_getD_ne _ _ _ _ _ hj,
                dfSet_getD_ne _ _ _ _ _ hj]
            · intro _ hl h
              simp [hl, sentIdsOf, List.filterMap_append, h]
          | error e =>
            rw [processStep_send_err Mode.newEmail labelId subjT bodyT g st idx toAddr s1 s2 e
              (by simp) he h1 h2 hs]
            refine ⟨by simp [markError],
              fun j hj => dfSet_getD_ne _ _ _ _ _ hj, ?_⟩
            intro _ hl h
            simp [markError, sentIdsOf, List.filterMap_append, h]
        | followupReply =>
          cases hs : g.sendResult idx with
          | ok sm =>
            rw [processStep_send_ok Mode.followupReply labelId subjT bodyT g st idx toAddr s1 s2 sm
              (by simp) he h1 h2 hs]
            refine ⟨by simp, ?_, fun hmm => by cases hmm⟩
            intro j hj
            simp only
            rw [dfSet_getD_ne _ _ _ _ _ hj, dfSet_getD_ne _ _ _ _ _ hj,
              dfSet_getD_ne _ _ _ _ _ hj]
          | error e =>
            rw [processStep_send_err Mode.followupReply labelId subjT bodyT g st idx toAddr s1 s2 e
              (by simp) he h1 h2 hs]
            refine ⟨by simp [markError],
              fun j hj => dfSet_getD_ne _ _ _ _ _ hj, fun hmm => by cases hmm⟩

theorem runLoop_break (m : Mode) (labelId : Option String) (subjT bodyT : String)
    (g : Gmail) (sendCap draftCap : Nat) (idx : Nat) (rest : List Nat)
    (st : RunState) (h : st.batch_count ≥ batchLimit m sendCap draftCap) :
    runLoop m labelId subjT bodyT g sendCap draftCap (idx :: rest) st = st := by
  simp [runLoop, h]

theorem runLoop_go (m : Mode) (labelId : Option String) (subjT bodyT : String)
    (g : Gmail) (sendCap draftCap : Nat) (idx : Nat) (rest : List Nat)
    (st : RunState) (h : st.batch_count < batchLimit m sendCap draftCap) :
    runLoop m labelId subjT bodyT g sendCap draftCap (idx :: rest) st =
      runLoop m labelId subjT bodyT g sendCap draftCap rest
        (processStep m labelId subjT bodyT g st idx) := by
  simp [runLoop, Nat.not_le_of_lt h]

theorem runLoop_batch_le (m : Mode) (labelId : Option String) (subjT bodyT : String)
    (g : Gmail) (sendCap draftCap : Nat) (pending : List Nat) (st : RunState)
    (h : st.batch_count ≤ batchLimit m sendCap draftCap) :
    (runLoop m labelId subjT bodyT g sendCap draftCap pending st).batch_count
      ≤ batchLimit m sendCap draftCap := by
  induction pending generalizing st with
  | nil => simpa [runLoop]
  | cons idx rest ih =>
    by_cases hb : st.batch_count ≥ batchLimit m sendCap draftCap
    · rw [runLoop_break m labelId subjT bodyT g sendCap draftCap idx rest st hb]
      exact h
    · have hlt : st.batch_count < batchLimit m sendCap draftCap := Nat.lt_of_not_le hb
      rw [runLoop_go m labelId subjT bodyT g sendCap draftCap idx rest st hlt]
      refine ih _ ?_
      have := (processStep_shape m labelId subjT bodyT g st idx).1
      omega

theorem runLoop_df_other (m : Mode) (labelId : Option String) (subjT bodyT : String)
    (g : Gmail) (sendCap draftCap : Nat) (pending : List Nat) (st : RunState)
    (i : Nat) (hi : i ∉ pending) :
    (runLoop m labelId subjT bodyT g sendCap draftCap pending st).df.getD i []
      = st.df.getD i [] := by
  induction pending generalizing st with
  | nil => simp [runLoop]
  | cons idx rest ih =>
    have hne : i ≠ idx := fun hh => hi (hh ▸ List.mem_cons_self idx rest)
    have hrest : i ∉ rest := fun hh => hi (List.mem_cons_of_mem idx hh)
    by_cases hb : st.batch_count ≥ batchLimit m sendCap draftCap
    · rw [runLoop_break m labelId subjT bodyT g sendCap draftCap idx rest st hb]
    · have hlt : st.batch_count < batchLimit m sendCap draftCap := Nat.lt_of_not_le hb
      rw [runLoop_go m labelId subjT bodyT g sendCap draftCap idx rest st hlt]
      rw [ih _ hrest]
      exact (processStep_shape m labelId subjT bodyT g st idx).2.1 i hne

theorem runLoop_ids_inv (labelId : Option String) (subjT bodyT : String)
    (g : Gmail) (sendCap draftCap : Nat) (pending : List Nat) (st : RunState)
    (hl : labelId.isSome = true)
    (h : st.sent_message_ids = sentIdsOf st.requests) :
    (runLoop Mode.newEmail labelId subjT bodyT g sendCap draftCap pending st).sent_message_ids
      = sentIdsOf
        (runLoop Mode.newEmail labelId subjT bodyT g sendCap draftCap pending st).requests := by
  induction pending generalizing st with
  | nil => simpa [runLoop]
  | cons idx rest ih =>
    by_cases hb : st.batch_count ≥ batchLimit Mode.newEmail sendCap draftCap
    · rw [runLoop_break Mode.newEmail labelId subjT bodyT g sendCap draftCap idx rest st hb]
      exact h
    · have hlt : st.batch_count < batchLimit Mode.newEmail sendCap draftCap :=
        Nat.lt_of_not_le hb
      rw [runLoop_go Mode.newEmail labelId subjT bodyT g sendCap draftCap idx rest st hlt]
      exact ih _
        ((processStep_shape Mode.newEmail labelId subjT bodyT g st idx).2.2 rfl hl h)

/-! ### Helper lemmas: template rendering -/

theorem fmtGo_lit_cons (r : Row) (c : Char) (cs : List Char)
    (hc1 : c ≠ '\x7b') (hc2 : c ≠ '\x7d') :
    fmtGo r (c :: cs) none = (fmtGo r cs none).map (fun l => c :: l) := by
  cases cs with
  | nil => simp [fmtGo, hc1, hc2, Except.map]
  | cons d cs2 => simp [fmtGo, hc1, hc2, Except.map]

theorem fmtGo_lit_append (r : Row) (s cs : List Char)
    (hs1 : '\x7b' ∉ s) (hs2 : '\x7d' ∉ s) :
    fmtGo r (s ++ cs) none = (fmtGo r cs none).map (fun l => s ++ l) := by
  induction s with
  | nil =>
    cases h : fmtGo r cs none <;> simp [h, Except.map]
  | cons c s2 ih =>
    have hc1 : c ≠ '\x7b' := fun hh => hs1 (hh ▸ List.mem_cons_self c s2)
    have hc2 : c ≠ '\x7d' := fun hh => hs2 (hh ▸ List.mem_cons_self c s2)
    have hs1' : '\x7b' ∉ s2 := fun hh => hs1 (List.mem_cons_of_mem c hh)
    have hs2' : '\x7d' ∉ s2 := fun hh => hs2 (List.mem_cons_of_mem c hh)
    rw [List.cons_append, fmtGo_lit_cons r c (s2 ++ cs) hc1 hc2, ih hs1' hs2']
    cases h : fmtGo r cs none <;> simp [h, Except.map]

theorem fmtGo_field (r : Row) (f : List Char) (hf : '\x7d' ∉ f) :
    ∀ acc cs, fmtGo r (f ++ '\x7d' :: cs) (some acc)
      = (match r.lookup (String.mk (acc.reverse ++ f)) with
        | some v => (fmtGo r cs none).map (fun l => v.data ++ l)
        | none => .error (String.mk (acc.reverse ++ f))) := by
  induction f with
  | nil =>
    intro acc cs
    simp [fmtGo]
  | cons c f2 ih =>
    intro acc cs
    have hc : c ≠ '\x7d' := fun hh => hf (hh ▸ List.mem_cons_self c f2)
    have hf' : '\x7d' ∉ f2 := fun hh => hf (List.mem_cons_of_mem c hh)
    rw [List.cons_append]
    show fmtGo r (c :: (f2 ++ '\x7d' :: cs)) (some acc) = _
    rw [fmtGo]
    simp only [hc, if_false]
    rw [ih hf' (c :: acc) cs]
    simp

theorem fmtGo_ph (r : Row) (f cs : List Char)
    (hf1 : '\x7b' ∉ f) (hf2 : '\x7d' ∉ f) :
    fmtGo r ('\x7b' :: (f ++ '\x7d' :: cs)) none
      = (match r.lookup (String.mk f) with
        | some v => (fmtGo r cs none).map (fun l => v.data ++ l)
        | none => .error (String.mk f)) := by
  cases f with
  | nil =>
    have h1 : fmtGo r ('\x7b' :: '\x7d' :: cs) none = fmtGo r ('\x7d' :: cs) (some []) := rfl
    rw [List.nil_append, h1]
    have h2 := fmtGo_field r [] (by simp) [] cs
    simp only [List.nil_append, List.reverse_nil, List.append_nil] at h2
    rw [h2]
  | cons c f2 =>
    have hc : c ≠ '\x7b' := fun hh => hf1 (hh ▸ List.mem_cons_self c f2)
    have hf2' : '\x7d' ∉ (c :: f2) := hf2
    rw [List.cons_append]
    have h1 : fmtGo r ('\x7b' :: c :: (f2 ++ '\x7d' :: cs)) none
        = fmtGo r (c :: (f2 ++ '\x7d' :: cs)) (some []) := by
      conv_lhs => rw [fmtGo]
      simp [hc]
    rw [h1]
    have h2 := fmtGo_field r (c :: f2) hf2' [] cs
    simp only [List.cons_append, List.reverse_nil, List.nil_append] at h2
    rw [h2]

theorem fmtGo_build (r : Row) (parts : List Part)
    (hwf : ∀ p ∈ parts, wfPart p) :
    fmtGo r (buildTemplate parts) none = renderPartsE r parts := by
  induction parts with
  | nil => rfl
  | cons p rest ih =>
    have hrest : ∀ q ∈ rest, wfPart q := fun q hq => hwf q (List.mem_cons_of_mem p hq)
    have ihr := ih hrest
    cases p with
    | lit s =>
      have hp : wfPart (Part.lit s) := hwf _ (List.mem_cons_self _ _)
      rw [buildTemplate, fmtGo_lit_append r s.data (buildTemplate rest) hp.1 hp.2, ihr]
      rfl
    | ph f =>
      have hp : wfPart (Part.ph f) := hwf _ (List.mem_cons_self _ _)
      rw [buildTemplate, fmtGo_ph r f.data (buildTemplate rest) hp.1 hp.2, ihr]
      rfl

theorem renderPartsE_ok (r : Row) (parts : List Part)
    (hpres : ∀ f, Part.ph f ∈ parts → (r.lookup f).isSome) :
    renderPartsE r parts = .ok (partsJoin r parts) := by
  induction parts with
  | nil => rfl
  | cons p rest ih =>
    have hrest : ∀ f, Part.ph f ∈ rest → (r.lookup f).isSome :=
      fun f hf => hpres f (List.mem_cons_of_mem p hf)
    cases p with
    | lit s => rw [renderPartsE, ih hrest]; rfl
    | ph f =>
      have hsome := hpres f (List.mem_cons_self _ _)
      cases hv : r.lookup f with
      | none => rw [hv] at hsome; simp at hsome
      | some v =>
        rw [renderPartsE, hv, ih hrest]
        simp [partsJoin, rowGet, hv, Except.map]

theorem renderPartsE_err (r : Row) (parts : List Part) (F : String)
    (hmem : Part.ph F ∈ parts) (habs : r.lookup F = none) :
    ∃ e, renderPartsE r parts = .error e := by
  induction parts with
  | nil => cases hmem
  | cons p rest ih =>
    cases p with
    | lit s =>
      have hm : Part.ph F ∈ rest := by
        rcases List.mem_cons.mp hmem with h | h
        · cases h
        · exact h
      obtain ⟨e, he⟩ := ih hm
      exact ⟨e, by rw [renderPartsE, he]; rfl⟩
    | ph f =>
      cases hv : r.lookup f with
      | none => exact ⟨f, by rw [renderPartsE, hv]⟩
      | some v =>
        have hm : Part.ph F ∈ rest := by
          rcases List.mem_cons.mp hmem with h | h
          · exfalso
            have : f = F := by cases h; rfl
            rw [this, habs] at hv
            cases hv
          · exact h
        obtain ⟨e, he⟩ := ih hm
        exact ⟨e, by rw [renderPartsE, hv, he]; rfl⟩

/-! ### Helper lemmas: address search, polling, defaulting -/

theorem matchAt_nil : matchAt [] = none := rfl

theorem searchGo_some (l : List Char) (m : List Char) (h : searchGo l = some m) :
    ∃ i, matchAt (l.drop i) = some m ∧ ∀ j < i, matchAt (l.drop j) = none := by
  induction l with
  | nil => cases h
  | cons c cs ih =>
    rw [searchGo] at h
    cases hm : matchAt (c :: cs) with
    | some r =>
      rw [hm] at h
      cases h
      exact ⟨0, hm, fun j hj => absurd hj (Nat.not_lt_zero j)⟩
    | none =>
      rw [hm] at h
      obtain ⟨i, hi, hj⟩ := ih h
      refine ⟨i + 1, hi, fun j hjlt => ?_⟩
      cases j with
      | zero => exact hm
      | succ j2 => exact hj j2 (Nat.lt_of_succ_lt_succ hjlt)

theorem searchGo_none (l : List Char) (h : searchGo l = none) :
    ∀ i, matchAt (l.drop i) = none := by
  induction l with
  | nil => intro i; simp [matchAt_nil]
  | cons c cs ih =>
    rw [searchGo] at h
    cases hm : matchAt (c :: cs) with
    | some r => rw [hm] at h; cases h
    | none =>
      rw [hm] at h
      intro i
      cases i with
      | zero => exact hm
      | succ i2 => exact ih h i2

theorem fetchGo_take (n : Nat) (l : List (Option (Option String))) :
    fetchGo n l = fetchGo n (l.take n) := by
  induction n generalizing l with
  | zero => rfl
  | succ n2 ih =>
    cases l with
    | nil => rfl
    | cons a rest =>
      cases a with
      | some v => rfl
      | none =>
        calc fetchGo (n2 + 1) (none :: rest) = fetchGo n2 rest := rfl
          _ = fetchGo n2 (rest.take n2) := ih rest
          _ = fetchGo (n2 + 1) (none :: rest.take n2) := rfl
          _ = fetchGo (n2 + 1) ((none :: rest).take (n2 + 1)) := by
                rw [List.take_succ_cons]

theorem pyOrElse_ne_empty (x : Option String) (y : String) (hy : y ≠ "") :
    pyOrElse x y ≠ "" := by
  cases x with
  | none => simpa [pyOrElse]
  | some s =>
    by_cases hs : s = "" <;> simp [pyOrElse, hs, hy]

/-! ### Helper lemmas: projections of a whole pass -/

theorem runBatch_state (m : Mode) (subjT bodyT : String) (g : Gmail)
    (df0 : List Row) (sendCap draftCap : Nat) (bm : Bool) :
    (runBatch m subjT bodyT g df0 sendCap draftCap bm).state
      = runLoop m (if m == Mode.newEmail then g.labelLookup else none)
          subjT bodyT g sendCap draftCap
          (pending_indices (prepareDf df0)) (initState (prepareDf df0)) := rfl

theorem runBatch_state_new (subjT bodyT : String) (g : Gmail)
    (df0 : List Row) (sendCap draftCap : Nat) (bm : Bool) :
    (runBatch Mode.newEmail subjT bodyT g df0 sendCap draftCap bm).state
      = runLoop Mode.newEmail g.labelLookup subjT bodyT g sendCap draftCap
          (pending_indices (prepareDf df0)) (initState (prepareDf df0)) := rfl

theorem runBatch_labelCall_new (subjT bodyT : String) (g : Gmail)
    (df0 : List Row) (sendCap draftCap : Nat) (bm : Bool) :
    (runBatch Mode.newEmail subjT bodyT g df0 sendCap draftCap bm).labelCall
      = labelCallOf Mode.newEmail g.labelLookup
          (runBatch Mode.newEmail subjT bodyT g df0 sendCap draftCap bm).state.sent_message_ids := rfl

theorem runBatch_labelCall_followup (subjT bodyT : String) (g : Gmail)
    (df0 : List Row) (sendCap draftCap : Nat) (bm : Bool) :
    (runBatch Mode.followupReply subjT bodyT g df0 sendCap draftCap bm).labelCall
      = labelCallOf Mode.followupReply none
          (runBatch Mode.followupReply subjT bodyT g df0 sendCap draftCap bm).state.sent_message_ids := rfl

theorem runBatch_summary (m : Mode) (subjT bodyT : String) (g : Gmail)
    (df0 : List Row) (sendCap draftCap : Nat) (bm : Bool) :
    (runBatch m subjT bodyT g df0 sendCap draftCap bm).summary
      = { sent := (runBatch m subjT bodyT g df0 sendCap draftCap bm).state.sent_count,
          errors := (runBatch m subjT bodyT g df0 sendCap draftCap bm).state.errors,
          skipped := (runBatch m subjT bodyT g df0 sendCap draftCap bm).state.skipped } := rfl

theorem runBatch_labelWarning (m : Mode) (subjT bodyT : String) (g : Gmail)
    (df0 : List Row) (sendCap draftCap : Nat) (bm : Bool) :
    (runBatch m subjT bodyT g df0 sendCap draftCap bm).labelWarning
      = ((runBatch m subjT bodyT g df0 sendCap draftCap bm).labelCall.isSome && !bm) := rfl

theorem labelCallOf_no_label (m : Mode) (ids : List String) :
    labelCallOf m none ids = none := by
  simp [labelCallOf]

theorem labelCallOf_new_some (l : String) (ids : List String) (hne : ids ≠ []) :
    labelCallOf Mode.newEmail (some l) ids = some (ids, l) := by
  have hie : ids.isEmpty = false := by
    cases ids with
    | nil => exact absurd rfl hne
    | cons a t => rfl
  simp [labelCallOf, hie]

theorem labelCallOf_new_nil (l : String) :
    labelCallOf Mode.newEmail (some l) [] = none := by
  simp [labelCallOf]

/-! ### Claims -/

/-- C8: Markdown conversion is applied to the body and never to the
subject; on the body it maps a double-starred span to bold markup, a
bracketed label with an http or https url to a hyperlink (other schemes
stay literal text), a newline to a line break and a double space to a
non-breaking double space; in particular the double-starred Hi with an
https link converts to a bold tag followed by an anchor with that href
and label. The last conjunct shows that the message a loop iteration
sends carries the rendered subject unconverted, while the body goes
through convert_bold. -/
theorem c8_markdown :
    convert_bold "**Hi** [link](https://x.com)"
        = shellPre
          ++ "<b>Hi</b> <a href=\"https://x.com\" style=\"color:#1a73e8; text-decoration:underline;\" target=\"_blank\">link</a>"
          ++ shellPost
    ∧ convert_bold "a\nb" = shellPre ++ "a<br>b" ++ shellPost
    ∧ convert_bold "a  b" = shellPre ++ "a&nbsp;&nbsp;b" ++ shellPost
    ∧ convert_bold "[x](ftp://y)" = shellPre ++ "[x](ftp://y)" ++ shellPost
    ∧ (∀ (m : Mode) (labelId : Option String) (subjT bodyT : String) (g : Gmail)
        (st : RunState) (idx : Nat) (toAddr s1 s2 : String),
        extract_email (pyStrip (rowGet (st.df.getD idx []) "Email")) = some toAddr →
        pyFormat (st.df.getD idx []) subjT = .ok s1 →
        pyFormat (st.df.getD idx []) bodyT = .ok s2 →
        ∃ req, (processStep m labelId subjT bodyT g st idx).requests = st.requests ++ [req]
          ∧ req.body.message.subject = s1
          ∧ req.body.message.bodyHtml = convert_bold s2) := by
  refine ⟨by decide, by decide, by decide, by decide, ?_⟩
  intro m labelId subjT bodyT g st idx toAddr s1 s2 he h1 h2
  cases m with
  | saveAsDraft =>
    cases hd : g.draftResult idx with
    | ok u =>
      cases u
      rw [processStep_draft_ok labelId subjT bodyT g st idx toAddr s1 s2 he h1 h2 hd]
      exact ⟨_, rfl, rfl, rfl⟩
    | error e =>
      rw [processStep_draft_err labelId subjT bodyT g st idx toAddr s1 s2 e he h1 h2 hd]
      exact ⟨_, rfl, rfl, rfl⟩
  | newEmail =>
    cases hs : g.sendResult idx with
    | ok sm =>
      rw [processStep_send_ok Mode.newEmail labelId subjT bodyT g st idx toAddr s1 s2 sm
        (by simp) he h1 h2 hs]
      exact ⟨_, rfl, rfl, rfl⟩
    | error e =>
      rw [processStep_send_err Mode.newEmail labelId subjT bodyT g st idx toAddr s1 s2 e
        (by simp) he h1 h2 hs]
      exact ⟨_, rfl, rfl, rfl⟩
  | followupReply =>
    cases hs : g.sendResult idx with
    | ok sm =>
      rw [processStep_send_ok Mode.followupReply labelId subjT bodyT g st idx toAddr s1 s2 sm
        (by simp) he h1 h2 hs]
      exact ⟨_, rfl, rfl, rfl⟩
    | error e =>
      rw [processStep_send_err Mode.followupReply labelId subjT bodyT g st idx toAddr s1 s2 e
        (by simp) he h1 h2 hs]
      exact ⟨_, rfl, rfl, rfl⟩

/-- Witness for C8: a concrete loop iteration sends a request whose
subject is the rendered subject and whose body went through convert_bold. -/
theorem c8_markdown_witness :
    ∃ req, (processStep Mode.newEmail none "Hi" "B" gOk (initState (prepareDf dfOne)) 0).requests
        = (initState (prepareDf dfOne)).requests ++ [req]
      ∧ req.body.message.subject = "Hi"
      ∧ req.body.message.bodyHtml = convert_bold "B" :=
  c8_markdown.2.2.2.2 Mode.newEmail none "Hi" "B" gOk (initState (prepareDf dfOne)) 0
    "a@b.com" "Hi" "B" (by decide) (by decide) (by decide)

/-- C9: For every template whose placeholder fields are all present in
the record, rendering returns the template with every placeholder
substituted exactly once by the value of the record field, with all
surrounding literal text preserved unchanged. -/
theorem c9_rendering (r : Row) (parts : List Part)
    (hwf : ∀ p ∈ parts, wfPart p)
    (hpres : ∀ f, Part.ph f ∈ parts → (r.lookup f).isSome) :
    pyFormat r (String.mk (buildTemplate parts)) = .ok (String.mk (partsJoin r parts)) := by
  unfold pyFormat
  change (fmtGo r (buildTemplate parts) none).map String.mk = _
  rw [fmtGo_build r parts hwf, renderPartsE_ok r parts hpres]
  rfl

/-- Witness for C9: the greeting template over the Ada record renders to
the literal text with the single placeholder substituted. -/
theorem c9_rendering_witness :
    pyFormat adaRow (String.mk (buildTemplate greetParts))
      = .ok (String.mk (partsJoin adaRow greetParts))
    ∧ pyFormat adaRow (String.mk (buildTemplate greetParts)) = .ok "Dear Ada!" := by
  have h := c9_rendering adaRow greetParts
    (by
      intro p hp
      simp only [greetParts, List.mem_cons, List.not_mem_nil, or_false] at hp
      rcases hp with h | h | h <;> subst h <;> exact ⟨by decide, by decide⟩)
    (by
      intro f hf
      simp only [greetParts, List.mem_cons, List.not_mem_nil, or_false] at hf
      rcases hf with h | h | h
      · cases h
      · cases h; decide
      · cases h)
  exact ⟨h, by rw [h]; decide⟩

/-- C10: Address extraction returns the first substring of its input
matching the pattern of the email regex, and a null result when no such
substring exists; in particular it extracts the address from a display
name form and yields none on text without an address. -/
theorem c10_extract_email :
    extract_email "Jane Doe <jane.doe@example.co.uk>" = some "jane.doe@example.co.uk"
    ∧ extract_email "not an email" = none
    ∧ (∀ (s res : String), extract_email s = some res →
        ∃ i, matchAt (s.data.drop i) = some res.data
          ∧ ∀ j < i, matchAt (s.data.drop j) = none)
    ∧ (∀ s : String, extract_email s = none → ∀ i, matchAt (s.data.drop i) = none) := by
  refine ⟨by decide, by decide, ?_, ?_⟩
  · intro s res h
    unfold extract_email at h
    by_cases hs : s = ""
    · rw [if_pos hs] at h
      cases h
    · rw [if_neg hs] at h
      cases hm : searchGo s.data with
      | none => rw [hm] at h; cases h
      | some mres =>
        rw [hm] at h
        have hres : res = String.mk mres := by
          cases h
          rfl
        subst hres
        exact searchGo_some s.data mres hm
  · intro s h i
    unfold extract_email at h
    by_cases hs : s = ""
    · subst hs
      have : ("" : String).data = [] := rfl
      rw [this, List.drop_nil]
      exact matchAt_nil
    · rw [if_neg hs] at h
      cases hm : searchGo s.data with
      | some mres => rw [hm] at h; cases h
      | none => exact searchGo_none s.data hm i

/-- Witness for C10: the first-match characterization instantiated on a
concrete address. -/
theorem c10_extract_email_witness :
    ∃ i, matchAt (("a@b.com" : String).data.drop i) = some ("a@b.com" : String).data
      ∧ ∀ j < i, matchAt (("a@b.com" : String).data.drop j) = none :=
  c10_extract_email.2.2.1 "a@b.com" "a@b.com" (by decide)

/-- C7: For every pending record whose template references a field absent
from the record, rendering fails (first conjunct); the failing record is
marked Error with the exception message retained against its address and
the counters untouched (second and third conjuncts, for subject and body
templates); and the loop then continues with the next pending record
rather than aborting (last conjunct). -/
theorem c7_missing_field :
    (∀ (r : Row) (parts : List Part) (F : String),
        (∀ p ∈ parts, wfPart p) → Part.ph F ∈ parts → r.lookup F = none →
        ∃ e, pyFormat r (String.mk (buildTemplate parts)) = .error e)
    ∧ (∀ (m : Mode) (labelId : Option String) (subjT bodyT : String) (g : Gmail)
        (st : RunState) (idx : Nat) (toAddr e : String),
        idx < st.df.length →
        extract_email (pyStrip (rowGet (st.df.getD idx []) "Email")) = some toAddr →
        pyFormat (st.df.getD idx []) subjT = .error e →
        processStep m labelId subjT bodyT g st idx = markError st idx toAddr e
        ∧ statusOf (processStep m labelId subjT bodyT g st idx).df idx = "Error"
        ∧ (processStep m labelId subjT bodyT g st idx).errors = st.errors ++ [(toAddr, e)]
        ∧ (processStep m labelId subjT bodyT g st idx).sent_count = st.sent_count
        ∧ (processStep m labelId subjT bodyT g st idx).batch_count = st.batch_count)
    ∧ (∀ (m : Mode) (labelId : Option String) (subjT bodyT : String) (g : Gmail)
        (st : RunState) (idx : Nat) (toAddr s1 e : String),
        extract_email (pyStrip (rowGet (st.df.getD idx []) "Email")) = some toAddr →
        pyFormat (st.df.getD idx []) subjT = .ok s1 →
        pyFormat (st.df.getD idx []) bodyT = .error e →
        processStep m labelId subjT bodyT g st idx = markError st idx toAddr e)
    ∧ (∀ (m : Mode) (labelId : Option String) (subjT bodyT : String) (g : Gmail)
        (sendCap draftCap idx : Nat) (rest : List Nat) (st : RunState),
        st.batch_count < batchLimit m sendCap draftCap →
        runLoop m labelId subjT bodyT g sendCap draftCap (idx :: rest) st
          = runLoop m labelId subjT bodyT g sendCap draftCap rest
              (processStep m labelId subjT bodyT g st idx)) := by
  refine ⟨?_, ?_, ?_, ?_⟩
  · intro r parts F hwf hmem habs
    obtain ⟨e, he⟩ := renderPartsE_err r parts F hmem habs
    refine ⟨e, ?_⟩
    unfold pyFormat
    change (fmtGo r (buildTemplate parts) none).map String.mk = _
    rw [fmtGo_build r parts hwf, he]
    rfl
  · intro m labelId subjT bodyT g st idx toAddr e hidx he h1
    have hp := processStep_subj_err m labelId subjT bodyT g st idx toAddr e he h1
    rw [hp]
    refine ⟨rfl, ?_, rfl, rfl, rfl⟩
    unfold statusOf markError
    simp only
    rw [dfSet_getD_self st.df idx "Status" "Error" hidx, rowGet_rowSet_self]
  · intro m labelId subjT bodyT g st idx toAddr s1 e he h1 h2
    exact processStep_body_err m labelId subjT bodyT g st idx toAddr s1 e he h1 h2
  · intro m labelId subjT bodyT g sendCap draftCap idx rest st hlt
    exact runLoop_go m labelId subjT bodyT g sendCap draftCap idx rest st hlt

/-- Witness for C7: a concrete template whose placeholder names a field
absent from the record fails to render, and a concrete loop iteration on
that template marks the record Error and retains the message. -/
theorem c7_missing_field_witness :
    (∃ e, pyFormat errRow (String.mk (buildTemplate badParts)) = .error e)
    ∧ (processStep Mode.newEmail none (String.mk (buildTemplate badParts)) "B" gOk
          (initState (prepareDf dfErr)) 0
        = markError (initState (prepareDf dfErr)) 0 "a@b.com" "Missing"
      ∧ statusOf (processStep Mode.newEmail none (String.mk (buildTemplate badParts)) "B" gOk
          (initState (prepareDf dfErr)) 0).df 0 = "Error"
      ∧ (processStep Mode.newEmail none (String.mk (buildTemplate badParts)) "B" gOk
          (initState (prepareDf dfErr)) 0).errors
          = (initState (prepareDf dfErr)).errors ++ [("a@b.com", "Missing")]
      ∧ (processStep Mode.newEmail none (String.mk (buildTemplate badParts)) "B" gOk
          (initState (prepareDf dfErr)) 0).sent_count
          = (initState (prepareDf dfErr)).sent_count
      ∧ (processStep Mode.newEmail none (String.mk (buildTemplate badParts)) "B" gOk
          (initState (prepareDf dfErr)) 0).batch_count
          = (initState (prepareDf dfErr)).batch_count) :=
  ⟨c7_missing_field.1 errRow badParts "Missing"
      (by
        intro p hp
        simp only [badParts, List.mem_cons, List.not_mem_nil, or_false] at hp
        rcases hp with h | h <;> subst h <;> exact ⟨by decide, by decide⟩)
      (by decide) (by decide),
   c7_missing_field.2.1 Mode.newEmail none (String.mk (buildTemplate badParts)) "B" gOk
      (initState (prepareDf dfErr)) 0 "a@b.com" "Missing"
      (by decide) (by decide) (by decide)⟩

/-- C4: For every record that a run marks Sent, the stored RfcMessageId
is the result of the bounded Message-ID poll when that poll found a
nonempty header value, and otherwise the provider message id; it is never
the empty string as long as the provider returned a nonempty id. The last
conjunct shows the poll inspects at most the first six attempts. -/
theorem c4_rfc_message_id (m : Mode) (labelId : Option String)
    (subjT bodyT : String) (g : Gmail) (st : RunState) (idx : Nat)
    (toAddr s1 s2 : String) (sm : SentMsg)
    (hidx : idx < st.df.length)
    (hm : m ≠ Mode.saveAsDraft)
    (he : extract_email (pyStrip (rowGet (st.df.getD idx []) "Email")) = some toAddr)
    (h1 : pyFormat (st.df.getD idx []) subjT = .ok s1)
    (h2 : pyFormat (st.df.getD idx []) bodyT = .ok s2)
    (hs : g.sendResult idx = .ok sm)
    (hid : sm.id ≠ "") :
    statusOf (processStep m labelId subjT bodyT g st idx).df idx = "Sent"
    ∧ rowGet ((processStep m labelId subjT bodyT g st idx).df.getD idx []) "RfcMessageId"
        = pyOrElse (fetch_message_id_header (g.msgIdAttempts idx)) sm.id
    ∧ rowGet ((processStep m labelId subjT bodyT g st idx).df.getD idx []) "RfcMessageId" ≠ ""
    ∧ (∀ attempts, fetch_message_id_header attempts
        = fetch_message_id_header (attempts.take 6)) := by
  have hp := processStep_send_ok m labelId subjT bodyT g st idx toAddr s1 s2 sm hm he h1 h2 hs
  have hl1 : idx < (dfSet st.df idx "ThreadId" sm.threadId).length := by
    rw [dfSet_length]
    exact hidx
  have hl2 : idx < (dfSet (dfSet st.df idx "ThreadId" sm.threadId) idx "RfcMessageId"
      (pyOrElse (fetch_message_id_header (g.msgIdAttempts idx)) sm.id)).length := by
    rw [dfSet_length, dfSet_length]
    exact hidx
  have hrfc : rowGet ((processStep m labelId subjT bodyT g st idx).df.getD idx []) "RfcMessageId"
      = pyOrElse (fetch_message_id_header (g.msgIdAttempts idx)) sm.id := by
    rw [hp]
    simp only
    rw [dfSet_getD_self _ _ _ _ hl2,
      rowGet_rowSet_ne _ _ _ _ (by decide : ("RfcMessageId" : String) ≠ "Status"),
      dfSet_getD_self _ _ _ _ hl1, rowGet_rowSet_self]
  refine ⟨?_, hrfc, ?_, fun attempts => fetchGo_take 6 attempts⟩
  · rw [hp]
    unfold statusOf
    simp only
    rw [dfSet_getD_self _ _ _ _ hl2, rowGet_rowSet_self]
  · rw [hrfc]
    exact pyOrElse_ne_empty _ _ hid

/-- Witness for C4: a concrete successful send with an empty poll trace
stores the provider id as the RfcMessageId. -/
theorem c4_rfc_message_id_witness :
    statusOf (processStep Mode.newEmail none "Hi" "B" gOk (initState (prepareDf dfOne)) 0).df 0
        = "Sent"
    ∧ rowGet ((processStep Mode.newEmail none "Hi" "B" gOk
          (initState (prepareDf dfOne)) 0).df.getD 0 []) "RfcMessageId"
        = pyOrElse (fetch_message_id_header (gOk.msgIdAttempts 0)) "id1"
    ∧ rowGet ((processStep Mode.newEmail none "Hi" "B" gOk
          (initState (prepareDf dfOne)) 0).df.getD 0 []) "RfcMessageId" ≠ ""
    ∧ (∀ attempts, fetch_message_id_header attempts
        = fetch_message_id_header (attempts.take 6)) :=
  c4_rfc_message_id Mode.newEmail none "Hi" "B" gOk (initState (prepareDf dfOne)) 0
    "a@b.com" "Hi" "B" ⟨"id1", "t1"⟩ (by decide) (by decide) (by decide) (by decide)
    (by decide) (by decide) (by decide)

/-- C5: In Follow-up mode, for every record whose ThreadId or
RfcMessageId is empty after stripping, the message is sent as a new
unthreaded message: the issued send request has no thread id and no
In-Reply-To or References header, and when the provider accepts it the
record is marked Sent, not failed. -/
theorem c5_followup_fallback (labelId : Option String) (subjT bodyT : String)
    (g : Gmail) (st : RunState) (idx : Nat) (toAddr s1 s2 : String)
    (hidx : idx < st.df.length)
    (he : extract_email (pyStrip (rowGet (st.df.getD idx []) "Email")) = some toAddr)
    (h1 : pyFormat (st.df.getD idx []) subjT = .ok s1)
    (h2 : pyFormat (st.df.getD idx []) bodyT = .ok s2)
    (hlink : pyStrip (rowGet (st.df.getD idx []) "ThreadId") = ""
        ∨ pyStrip (rowGet (st.df.getD idx []) "RfcMessageId") = "") :
    (processStep Mode.followupReply labelId subjT bodyT g st idx).requests
      = st.requests
        ++ [Request.send idx
              { message := { toAddr := toAddr, subject := s1,
                             bodyHtml := convert_bold s2,
                             inReplyTo := none, references := none },
                threadId := none } (g.sendResult idx)]
    ∧ (∀ sm, g.sendResult idx = .ok sm →
        statusOf (processStep Mode.followupReply labelId subjT bodyT g st idx).df idx
          = "Sent") := by
  have hunthreaded := stepBody_unthreaded Mode.followupReply (st.df.getD idx []) toAddr s1 s2 hlink
  cases hs : g.sendResult idx with
  | ok sm =>
    have hp := processStep_send_ok Mode.followupReply labelId subjT bodyT g st idx
      toAddr s1 s2 sm (by simp) he h1 h2 hs
    constructor
    · rw [hp]
      simp only
      rw [hunthreaded]
    · intro sm2 hsm2
      rw [hp]
      unfold statusOf
      simp only
      have hl2 : idx < (dfSet (dfSet st.df idx "ThreadId" sm.threadId) idx "RfcMessageId"
          (pyOrElse (fetch_message_id_header (g.msgIdAttempts idx)) sm.id)).length := by
        rw [dfSet_length, dfSet_length]
        exact hidx
      rw [dfSet_getD_self _ _ _ _ hl2, rowGet_rowSet_self]
  | error e =>
    have hp := processStep_send_err Mode.followupReply labelId subjT bodyT g st idx
      toAddr s1 s2 e (by simp) he h1 h2 hs
    constructor
    · rw [hp]
      simp only
      rw [hunthreaded]
    · intro sm2 hsm2
      cases hsm2

/-- Witness for C5: a concrete follow-up record with an empty ThreadId is
sent unthreaded and ends up Sent. -/
theorem c5_followup_fallback_witness :
    (processStep Mode.followupReply none "Hi" "B" gOk (initState (prepareDf dfFollowup)) 0).requests
      = (initState (prepareDf dfFollowup)).requests
        ++ [Request.send 0
              { message := { toAddr := "a@b.com", subject := "Hi",
                             bodyHtml := convert_bold "B",
                             inReplyTo := none, references := none },
                threadId := none } (gOk.sendResult 0)]
    ∧ (∀ sm, gOk.sendResult 0 = .ok sm →
        statusOf (processStep Mode.followupReply none "Hi" "B" gOk
          (initState (prepareDf dfFollowup)) 0).df 0 = "Sent") :=
  c5_followup_fallback none "Hi" "B" gOk (initState (prepareDf dfFollowup)) 0
    "a@b.com" "Hi" "B" (by decide) (by decide) (by decide) (by decide)
    (Or.inl (by decide))

/-- C1 (amended): after the batch loop exits, the batched labeling call
happens only in New Email mode: there, when a label id was obtained, the
collected ids are exactly the ids of every successfully sent record, and
when at least one was collected one batchModify call carries them all; in
Follow-up mode no labeling call is made; the labeling outcome feeds only
the warning flag and never the summary or the table. -/
theorem c1_labeling (subjT bodyT : String) (g : Gmail) (df0 : List Row)
    (sendCap draftCap : Nat) (bm : Bool) (l : String)
    (hl : g.labelLookup = some l) :
    ((runBatch Mode.newEmail subjT bodyT g df0 sendCap draftCap bm).state.sent_message_ids
        = sentIdsOf (runBatch Mode.newEmail subjT bodyT g df0 sendCap draftCap bm).state.requests)
    ∧ ((runBatch Mode.newEmail subjT bodyT g df0 sendCap draftCap bm).state.sent_message_ids ≠ [] →
        (runBatch Mode.newEmail subjT bodyT g df0 sendCap draftCap bm).labelCall
          = some ((runBatch Mode.newEmail subjT bodyT g df0 sendCap draftCap bm).state.sent_message_ids, l))
    ∧ ((runBatch Mode.newEmail subjT bodyT g df0 sendCap draftCap bm).state.sent_message_ids = [] →
        (runBatch Mode.newEmail subjT bodyT g df0 sendCap draftCap bm).labelCall = none)
    ∧ (∀ (g2 : Gmail) (bm2 : Bool),
        (runBatch Mode.followupReply subjT bodyT g2 df0 sendCap draftCap bm2).labelCall = none)
    ∧ ((runBatch Mode.newEmail subjT bodyT g df0 sendCap draftCap bm).summary
        = (runBatch Mode.newEmail subjT bodyT g df0 sendCap draftCap (!bm)).summary)
    ∧ ((runBatch Mode.newEmail subjT bodyT g df0 sendCap draftCap bm).state
        = (runBatch Mode.newEmail subjT bodyT g df0 sendCap draftCap (!bm)).state)
    ∧ ((runBatch Mode.newEmail subjT bodyT g df0 sendCap draftCap false).labelCall.isSome = true →
        (runBatch Mode.newEmail subjT bodyT g df0 sendCap draftCap false).labelWarning = true) := by
  refine ⟨?_, ?_, ?_, ?_, rfl, rfl, ?_⟩
  · rw [runBatch_state_new]
    refine runLoop_ids_inv g.labelLookup subjT bodyT g sendCap draftCap _ _ ?_ rfl
    rw [hl]
    rfl
  · intro hne
    rw [runBatch_labelCall_new, hl]
    exact labelCallOf_new_some l _ hne
  · intro hnil
    rw [runBatch_labelCall_new, hl, hnil]
    exact labelCallOf_new_nil l
  · intro g2 bm2
    rw [runBatch_labelCall_followup]
    exact labelCallOf_no_label _ _
  · intro h
    rw [runBatch_labelWarning, h]
    rfl

/-- Witness for C1 (amended): a concrete New-mode run with one sent record
issues the batched labeling call with the collected ids and label id. -/
theorem c1_labeling_witness :
    (runBatch Mode.newEmail "Hi" "B" gOk dfOne 50 110 true).labelCall
      = some ((runBatch Mode.newEmail "Hi" "B" gOk dfOne 50 110 true).state.sent_message_ids, "L") :=
  (c1_labeling "Hi" "B" gOk dfOne 50 110 true "L" rfl).2.1 (by decide)

/-- C1 is false as stated: in Follow-up mode a record is successfully
sent (the summary counts one send and one send request was issued), yet
no labeling call is made, because the label id is only obtained and ids
are only collected in New Email mode. -/
theorem c1_labeling_counterexample :
    (runBatch Mode.followupReply "Hi" "B" gOk dfFollowup 50 110 true).summary.sent = 1
    ∧ (runBatch Mode.followupReply "Hi" "B" gOk dfFollowup 50 110 true).state.requests.length = 1
    ∧ (runBatch Mode.followupReply "Hi" "B" gOk dfFollowup 50 110 true).labelCall = none :=
  ⟨by decide, by decide, by decide⟩

/-- C2 (amended): rerunning the batch over a table in which every record
has Status Sent or Draft computes an empty pending set, issues no
provider request, leaves the table unchanged and produces an all-zero
summary. Records whose Status is Skipped or Error are not excluded. -/
theorem c2_idempotent_rerun (m : Mode) (subjT bodyT : String) (g : Gmail)
    (df0 : List Row) (sendCap draftCap : Nat) (bm : Bool)
    (h : ∀ r ∈ prepareDf df0, rowGet r "Status" = "Sent" ∨ rowGet r "Status" = "Draft") :
    pending_indices (prepareDf df0) = []
    ∧ (runBatch m subjT bodyT g df0 sendCap draftCap bm).summary
        = { sent := 0, errors := [], skipped := [] }
    ∧ (runBatch m subjT bodyT g df0 sendCap draftCap bm).state.requests = []
    ∧ (runBatch m subjT bodyT g df0 sendCap draftCap bm).state.df = prepareDf df0 := by
  have hpend : pending_indices (prepareDf df0) = [] := by
    unfold pending_indices
    rw [List.filter_eq_nil_iff]
    intro i hi
    have hilt : i < (prepareDf df0).length := List.mem_range.mp hi
    have hmem : (prepareDf df0).getD i [] ∈ prepareDf df0 := by
      rw [List.getD_eq_getElem (prepareDf df0) [] hilt]
      exact List.getElem_mem hilt
    rcases h _ hmem with hst | hst <;>
      (simp only [statusOf]; rw [hst]; decide)
  have hstate : (runBatch m subjT bodyT g df0 sendCap draftCap bm).state
      = initState (prepareDf df0) := by
    rw [runBatch_state, hpend]
    rfl
  exact ⟨hpend, by rw [runBatch_summary, hstate]; rfl, by rw [hstate]; rfl,
    by rw [hstate]; rfl⟩

/-- Witness for C2 (amended): a concrete table of one Sent and one Draft
record is untouched by a rerun, which reports all-zero counts. -/
theorem c2_idempotent_rerun_witness :
    pending_indices (prepareDf dfAllSent) = []
    ∧ (runBatch Mode.newEmail "Hi" "B" gOk dfAllSent 50 110 true).summary
        = { sent := 0, errors := [], skipped := [] }
    ∧ (runBatch Mode.newEmail "Hi" "B" gOk dfAllSent 50 110 true).state.requests = []
    ∧ (runBatch Mode.newEmail "Hi" "B" gOk dfAllSent 50 110 true).state.df
        = prepareDf dfAllSent :=
  c2_idempotent_rerun Mode.newEmail "Hi" "B" gOk dfAllSent 50 110 true (by decide)

/-- C2 is false as stated: a table whose single record carries the
terminal Status Skipped is reprocessed on a rerun (its address-free Email
field is reported as skipped once more), so the summary is not all-zero. -/
theorem c2_idempotent_rerun_counterexample :
    pending_indices (prepareDf dfAllSkipped) = [0]
    ∧ (runBatch Mode.newEmail "Hi" "B" gOk dfAllSkipped 50 110 true).summary.skipped = ["x"]
    ∧ (runBatch Mode.newEmail "Hi" "B" gOk dfAllSkipped 50 110 true).summary.skipped ≠ [] :=
  ⟨by decide, by decide, by decide⟩

/-- C3: the loop stops once the per-run cap is reached: the counter never
exceeds the per-mode limit (first conjunct), the limit is the draft cap in
Draft mode and the send cap otherwise with distinct defaults (second and
third conjuncts), and on 3 pending records with a cap of 2 exactly the
first 2 are processed to a terminal state while the third stays Pending
for a future run (last conjunct). -/
theorem c3_batch_cap :
    (∀ (m : Mode) (labelId : Option String) (subjT bodyT : String) (g : Gmail)
        (sendCap draftCap : Nat) (pending : List Nat) (st : RunState),
        st.batch_count ≤ batchLimit m sendCap draftCap →
        (runLoop m labelId subjT bodyT g sendCap draftCap pending st).batch_count
          ≤ batchLimit m sendCap draftCap)
    ∧ (∀ sendCap draftCap : Nat,
        batchLimit Mode.saveAsDraft sendCap draftCap = draftCap
        ∧ batchLimit Mode.newEmail sendCap draftCap = sendCap
        ∧ batchLimit Mode.followupReply sendCap draftCap = sendCap)
    ∧ DRAFT_BATCH_SIZE_DEFAULT ≠ BATCH_SIZE_DEFAULT
    ∧ ((runBatch Mode.newEmail "Hi" "B" gOk df3Pending 2 2 true).summary.sent = 2
        ∧ statusOf (runBatch Mode.newEmail "Hi" "B" gOk df3Pending 2 2 true).state.df 0 = "Sent"
        ∧ statusOf (runBatch Mode.newEmail "Hi" "B" gOk df3Pending 2 2 true).state.df 1 = "Sent"
        ∧ statusOf (runBatch Mode.newEmail "Hi" "B" gOk df3Pending 2 2 true).state.df 2 = "Pending"
        ∧ pending_indices (runBatch Mode.newEmail "Hi" "B" gOk df3Pending 2 2 true).state.df
            = [2]) := by
  refine ⟨?_, fun sendCap draftCap => ⟨rfl, rfl, rfl⟩, by decide,
    by decide, by decide, by decide, by decide, by decide⟩
  intro m labelId subjT bodyT g sendCap draftCap pending st hle
  exact runLoop_batch_le m labelId subjT bodyT g sendCap draftCap pending st hle

/-- Witness for C3: the cap bound instantiated on a concrete run over the
three pending records with both caps set to 2. -/
theorem c3_batch_cap_witness :
    (runLoop Mode.newEmail none "Hi" "B" gOk 2 2 [0, 1, 2]
        (initState (prepareDf df3Pending))).batch_count
      ≤ batchLimit Mode.newEmail 2 2 :=
  c3_batch_cap.1 Mode.newEmail none "Hi" "B" gOk 2 2 [0, 1, 2]
    (initState (prepareDf df3Pending)) (by decide)

/-- C6: a record whose Status is Sent or Draft is excluded from the
computed pending set (first conjunct), and a whole run leaves such a
record of the prepared table untouched (second conjunct). -/
theorem c6_sent_draft_excluded :
    (∀ (df : List Row) (i : Nat),
        statusOf df i = "Sent" ∨ statusOf df i = "Draft" → i ∉ pending_indices df)
    ∧ (∀ (m : Mode) (subjT bodyT : String) (g : Gmail) (df0 : List Row)
        (sendCap draftCap : Nat) (bm : Bool) (i : Nat),
        statusOf (prepareDf df0) i = "Sent" ∨ statusOf (prepareDf df0) i = "Draft" →
        (runBatch m subjT bodyT g df0 sendCap draftCap bm).state.df.getD i []
          = (prepareDf df0).getD i []) := by
  have part1 : ∀ (df : List Row) (i : Nat),
      statusOf df i = "Sent" ∨ statusOf df i = "Draft" → i ∉ pending_indices df := by
    intro df i h hmem
    unfold pending_indices at hmem
    rw [List.mem_filter] at hmem
    rcases h with h | h <;> simp [h] at hmem
  refine ⟨part1, ?_⟩
  intro m subjT bodyT g df0 sendCap draftCap bm i h
  rw [runBatch_state]
  exact runLoop_df_other m _ subjT bodyT g sendCap draftCap _ _ i (part1 _ _ h)

/-- Witness for C6: the Sent record of a concrete table is excluded from
the pending set and untouched by a concrete run. -/
theorem c6_sent_draft_excluded_witness :
    0 ∉ pending_indices (prepareDf dfAllSent)
    ∧ (runBatch Mode.newEmail "Hi" "B" gOk dfAllSent 50 110 true).state.df.getD 0 []
        = (prepareDf dfAllSent).getD 0 [] :=
  ⟨c6_sent_draft_excluded.1 (prepareDf dfAllSent) 0 (Or.inl (by decide)),
   c6_sent_draft_excluded.2 Mode.newEmail "Hi" "B" gOk dfAllSent 50 110 true 0
     (Or.inl (by decide))⟩

end MailMerge
